import Mathlib

/-!
Verification of `src/paper.py`, a single-screen tool that uploads
architecture-diagram images, builds a multimodal chat-completion request, and
renders the response.  The shallow embedding below follows the Python source:
pure construction code is translated into Lean functions, external effects
(the image codec of the imaging library, the hosted chat-completion call, the
secret store) become explicit parameters, and machine bytes are `Nat` values
below 256.
-/

namespace Paper

/-! ## Base64

`encode_image_to_base64` calls the standard library's `base64.b64encode`,
which implements RFC 4648 base64: three bytes become four alphabet
characters, with `=` padding for a final group of one or two bytes. -/

def b64Alphabet : List Char :=
  String.toList "ABCDEFGHIJKLMNOPQRSTUVWXYZabcdefghijklmnopqrstuvwxyz0123456789+/"

def b64Char (n : Nat) : Char := b64Alphabet.getD n 'A'

def b64CharVal (c : Char) : Nat := b64Alphabet.indexOf c

def b64EncodeChunks : List Nat → List Char
  | [] => []
  | [a] =>
      [b64Char (a / 4), b64Char (a % 4 * 16), '=', '=']
  | [a, b] =>
      [b64Char (a / 4), b64Char (a % 4 * 16 + b / 16), b64Char (b % 16 * 4), '=']
  | a :: b :: c :: rest =>
      b64Char (a / 4) :: b64Char (a % 4 * 16 + b / 16) ::
      b64Char (b % 16 * 4 + c / 64) :: b64Char (c % 64) :: b64EncodeChunks rest

/-- `base64.b64encode(...).decode('utf-8')`: the base64 text of a byte string. -/
def b64Encode (bytes : List Nat) : String := String.mk (b64EncodeChunks bytes)

/-- Modelled from the spec: standard base64 decoding, the round-trip
counterpart of `b64Encode` (the repository itself only encodes; the spec's
round-trip property speaks of decoding what was sent). -/
def b64DecodeChunks : List Char → List Nat
  | c1 :: c2 :: c3 :: c4 :: rest =>
      if c3 = '=' then
        [b64CharVal c1 * 4 + b64CharVal c2 / 16]
      else if c4 = '=' then
        [b64CharVal c1 * 4 + b64CharVal c2 / 16,
         b64CharVal c2 % 16 * 16 + b64CharVal c3 / 4]
      else
        (b64CharVal c1 * 4 + b64CharVal c2 / 16) ::
        (b64CharVal c2 % 16 * 16 + b64CharVal c3 / 4) ::
        (b64CharVal c3 % 4 * 64 + b64CharVal c4) ::
        b64DecodeChunks rest
  | _ => []

def b64Decode (s : String) : List Nat := b64DecodeChunks s.toList

/-! ## Images and the normalizer

An uploaded file is decoded by the imaging library into a raster image; the
library's JPEG serializer is external code, so it enters the embedding as a
parameter producing the compressed byte string. -/

structure RasterImage where
  width : Nat
  height : Nat
  channels : Nat
  content : Nat
deriving DecidableEq, Repr

/-- `image.convert("RGB")`: re-expresses the raster in 3-channel color. -/
def convert_rgb (img : RasterImage) : RasterImage :=
  { img with channels := 3 }

/-- The imaging library's JPEG serializer (`image.save(buffered, format="JPEG")`
followed by `buffered.getvalue()`), external to the repository. -/
abbrev JpegCodec := RasterImage → List Nat

/-- `encode_image_to_base64` (src/paper.py lines 41-45): convert to RGB,
serialize as JPEG, and return the base64 text of the JPEG bytes. -/
def encode_image_to_base64 (save_jpeg : JpegCodec) (image : RasterImage) : String :=
  b64Encode (save_jpeg (convert_rgb image))

/-! ## Prompt builder

`generate_natural_method` interpolates the domain text and the image count
into a fixed f-string template (src/paper.py lines 54-75); an f-string is the
concatenation of its literal pieces with the formatted interpolations. -/

def prompt_before_domain : String :=
  "\n    You are an elite AI researcher writing the **\"Proposed Method\"** section for a top-tier conference paper (e.g., CVPR, NeurIPS).\n    \n    **GOAL:** Analyze the attached architecture diagrams (there may be multiple images detailing different parts) and write a **cohesive, logically flowing** description of the proposed framework.\n    \n    **INSTRUCTIONS:**\n    1. **No Artificial Segmentation:** Do NOT force the text into too many sub-sections. Prioritize a **smooth narrative flow**.\n    2. **Synthesize Information:** If multiple images are provided (e.g., overall architecture + detailed module), synthesize them into a single coherent explanation.\n    3. **Academic Rigor:** Use high-level academic English. Use **LaTeX** for all variables and formulas ($x$, $L_{total}$).\n    4. **Detail Oriented:** Describe exactly what is happening in the images. Start with the overall pipeline and naturally transition into the details of specific components.\n\n    [Context Info]\n    - **Domain:** "

def prompt_before_count : String :=
  "\n    - **Visual Input:** "

def prompt_after_count : String :=
  " architecture diagram(s) attached.\n\n    **Structure Guide:**\n    - Start with a strong paragraph summarizing the overall framework.\n    - Dedicate substantial paragraphs to detailing the key modules shown in the diagrams.\n    - Conclude with the training objectives or inference strategy.\n    \n    Start writing the \"Proposed Method\" section now.\n    "

/-- The `user_prompt` f-string: fixed template with the domain text embedded
verbatim and the image count formatted in decimal (`len(image_list)`). -/
def user_prompt (domain_text : String) (image_count : Nat) : String :=
  prompt_before_domain ++ domain_text ++ prompt_before_count ++
    Nat.repr image_count ++ prompt_after_count

/-- One unit of the multimodal message content: either
`{"type": "text", "text": ...}` or
`{"type": "image_url", "image_url": {"url": ...}}`. -/
inductive ContentBlock where
  | text (body : String)
  | image_url (url : String)
deriving DecidableEq, Repr

/-- The image block appended for one image (src/paper.py lines 80-87):
a data URI `data:image/jpeg;base64,<data>` around the base64 payload. -/
def image_block (save_jpeg : JpegCodec) (img : RasterImage) : ContentBlock :=
  ContentBlock.image_url ("data:image/jpeg;base64," ++ encode_image_to_base64 save_jpeg img)

/-- `content_payload` (src/paper.py lines 77-87): start from the single text
block, then the for-loop appends one image block per uploaded image. -/
def content_payload (save_jpeg : JpegCodec) (domain_text : String)
    (image_list : List RasterImage) : List ContentBlock :=
  image_list.foldl (fun acc img => acc ++ [image_block save_jpeg img])
    [ContentBlock.text (user_prompt domain_text image_list.length)]

/-! ## The chat-completion request -/

structure ChatMessage where
  role : String
  content : List ContentBlock
deriving DecidableEq, Repr

/-- The keyword arguments of `client.chat.completions.create`; the
temperature is the exact rational value of the float literal `0.5`. -/
structure ChatRequest where
  messages : List ChatMessage
  model : String
  temperature : ℚ
  max_tokens : Nat
deriving DecidableEq, Repr

/-- src/paper.py line 91. -/
def model_id : String := "llama-3.2-11b-vision-preview"

/-- The hosted chat-completion endpoint, external to the repository: given the
api key held by the `Groq` client and the request, it either returns the text
`chat_completion.choices[0].message.content` or raises, the raised exception
carrying its `str(e)` rendering. -/
abbrev GroqCall := String → ChatRequest → Except String String

/-- The request `generate_natural_method` sends (src/paper.py lines 94-104):
a single user message holding the content payload, the fixed model id,
temperature 0.5 and max_tokens 6000. -/
def built_request (save_jpeg : JpegCodec) (domain_text : String)
    (image_list : List RasterImage) : ChatRequest :=
  { messages := [{ role := "user", content := content_payload save_jpeg domain_text image_list }],
    model := model_id,
    temperature := 0.5,
    max_tokens := 6000 }

/-- `generate_natural_method` (src/paper.py lines 50-107): build the payload,
issue the call, return the response content, or on any exception return the
marker-tagged error string instead of raising. -/
def generate_natural_method (call : GroqCall) (save_jpeg : JpegCodec)
    (api_key domain_text : String) (image_list : List RasterImage) : String :=
  match call api_key (built_request save_jpeg domain_text image_list) with
  | Except.ok content => content
  | Except.error e => "❌ Groq 오류 발생: " ++ e

/-! ## Result presentation and the button handler -/

/-- Whether `needle` occurs contiguously at the head of `hay`. -/
def leads_with : List Char → List Char → Bool
  | [], _ => true
  | _ :: _, [] => false
  | n :: ns, h :: hs => n = h && leads_with ns hs

/-- Whether `needle` occurs contiguously anywhere in `hay`. -/
def contains_chars (needle : List Char) : List Char → Bool
  | [] => needle.isEmpty
  | h :: hs => leads_with needle (h :: hs) || contains_chars needle hs

/-- Python's substring test `needle in hay` on strings. -/
def py_contains (needle hay : String) : Bool :=
  contains_chars needle.toList hay.toList

/-- The marker the result check looks for (src/paper.py line 153). -/
def error_marker : String := "❌"

/-- What the result area shows for a returned string. -/
inductive ResultView where
  | error_banner (msg : String)
  | generated (body : String)
deriving DecidableEq, Repr

/-- src/paper.py lines 153-159: `if "❌" in result:` show an error banner,
else show the generated section (heading, markdown body and copy area). -/
def render_result (result : String) : ResultView :=
  if py_contains error_marker result then ResultView.error_banner result
  else ResultView.generated result

/-- Outcome of pressing the button (src/paper.py lines 145-159). -/
inductive ClickOutcome where
  | rejected (msg : String)
  | displayed (view : ResultView)
deriving DecidableEq, Repr

/-- The button handler: with no uploaded images the request is rejected with
an error message; otherwise `generate_natural_method` runs and its result is
rendered. -/
def on_click (call : GroqCall) (save_jpeg : JpegCodec)
    (api_key domain_input : String) (pil_images : List RasterImage) : ClickOutcome :=
  if pil_images.isEmpty then
    ClickOutcome.rejected "이미지를 한 장 이상 업로드해주세요!"
  else
    ClickOutcome.displayed
      (render_result (generate_natural_method call save_jpeg api_key domain_input pil_images))

/-! ## Startup and the secret store -/

/-- The messages shown when the credential is missing (src/paper.py lines 33-35). -/
def config_error_messages : List String :=
  ["🚨 API 키가 설정되지 않았습니다!",
   "💡 [배포 후] Streamlit Cloud 앱 설정 > Secrets 메뉴에 'GROQ_API_KEY'를 추가해주세요.",
   "💡 [로컬 실행] .streamlit/secrets.toml 파일을 확인해주세요."]

/-- `st.secrets["GROQ_API_KEY"]` under the try/except of lines 30-36: a
missing secrets file raises FileNotFoundError (`none` store) and a missing
key raises KeyError; both are caught and produce no credential. -/
def lookup_api_key (secrets_file : Option (List (String × String))) : Option String :=
  match secrets_file with
  | none => none
  | some store => store.lookup "GROQ_API_KEY"

/-- The page rendered once startup succeeds: the title and, after a click,
the button handler's outcome. -/
structure PageView where
  title : String
  click : Option ClickOutcome
deriving DecidableEq, Repr

inductive AppOutcome where
  | halted_config (messages : List String)
  | page (view : PageView)
deriving DecidableEq, Repr

/-- The whole script run: load the credential (halting with the configuration
error messages if it is absent, before any UI is built), then render the page;
a click runs the button handler with the loaded key. -/
def app (secrets_file : Option (List (String × String))) (call : GroqCall)
    (save_jpeg : JpegCodec) (domain_input : String) (pil_images : List RasterImage)
    (clicked : Bool) : AppOutcome :=
  match lookup_api_key secrets_file with
  | none => AppOutcome.halted_config config_error_messages
  | some key =>
      AppOutcome.page
        { title := "📄 AI Paper Writer (Multi-Image Support)",
          click := if clicked then
              some (on_click call save_jpeg key domain_input pil_images)
            else none }

/-! ## Helper lemmas -/

theorem foldl_append_eq_map {α β : Type} (f : α → β) (init : List β) (l : List α) :
    l.foldl (fun acc x => acc ++ [f x]) init = init ++ l.map f := by
  induction l generalizing init with
  | nil => simp
  | cons x xs ih => simp [List.foldl_cons, ih, List.append_assoc]

theorem string_toList_append (s t : String) :
    (s ++ t).toList = s.toList ++ t.toList := by
  cases s
  cases t
  rfl

theorem b64CharVal_b64Char : ∀ n : Nat, n < 64 → b64CharVal (b64Char n) = n := by
  decide

theorem b64Char_ne_pad : ∀ n : Nat, n < 64 → b64Char n ≠ '=' := by
  decide

theorem b64_chunks_roundtrip :
    ∀ bs : List Nat, (∀ b ∈ bs, b < 256) → b64DecodeChunks (b64EncodeChunks bs) = bs
  | [], _ => rfl
  | [a], h => by
      have ha : a < 256 := h a (by simp)
      simp only [b64EncodeChunks, b64DecodeChunks, if_true]
      rw [b64CharVal_b64Char _ (by omega), b64CharVal_b64Char _ (by omega)]
      simp only [List.cons.injEq, and_true]
      omega
  | [a, b], h => by
      have ha : a < 256 := h a (by simp)
      have hb : b < 256 := h b (by simp)
      simp only [b64EncodeChunks, b64DecodeChunks]
      rw [if_neg (b64Char_ne_pad _ (by omega))]
      simp only [if_true]
      rw [b64CharVal_b64Char _ (by omega), b64CharVal_b64Char _ (by omega),
        b64CharVal_b64Char _ (by omega)]
      simp only [List.cons.injEq, and_true]
      constructor
      · omega
      · omega
  | a :: b :: c :: rest, h => by
      have ha : a < 256 := h a (by simp)
      have hb : b < 256 := h b (by simp)
      have hc : c < 256 := h c (by simp)
      have ih := b64_chunks_roundtrip rest (fun x hx => h x (by simp [hx]))
      simp only [b64EncodeChunks, b64DecodeChunks]
      rw [if_neg (b64Char_ne_pad _ (by omega)), if_neg (b64Char_ne_pad _ (by omega))]
      rw [b64CharVal_b64Char _ (by omega), b64CharVal_b64Char _ (by omega),
        b64CharVal_b64Char _ (by omega), b64CharVal_b64Char _ (by omega)]
      rw [ih]
      simp only [List.cons.injEq]
      exact ⟨by omega, by omega, by omega, trivial⟩

/-! ## Claim theorems -/

/-- C1: for every domain text and list of images, the payload construction of
`generate_natural_method` emits exactly one text block followed by exactly one
image block per input image, the image blocks in input order. -/
theorem content_payload_one_text_then_images (save_jpeg : JpegCodec)
    (domain_text : String) (image_list : List RasterImage) :
    content_payload save_jpeg domain_text image_list =
      ContentBlock.text (user_prompt domain_text image_list.length) ::
        image_list.map (image_block save_jpeg) ∧
    (image_list.map (image_block save_jpeg)).length = image_list.length := by
  constructor
  · unfold content_payload
    rw [foldl_append_eq_map]
    rfl
  · simp

/-- C2: whenever the chat-completion call raises, `generate_natural_method`
returns the marker-tagged error string rather than propagating the exception,
that string contains the marker `❌`, and the caller's sole substring check
therefore classifies it as a failure (error banner, not a result). -/
theorem exception_returns_marker_string (call : GroqCall) (save_jpeg : JpegCodec)
    (api_key domain_text : String) (image_list : List RasterImage) (e : String)
    (h : call api_key (built_request save_jpeg domain_text image_list) = Except.error e) :
    generate_natural_method call save_jpeg api_key domain_text image_list =
      "❌ Groq 오류 발생: " ++ e ∧
    py_contains error_marker
      (generate_natural_method call save_jpeg api_key domain_text image_list) = true ∧
    render_result (generate_natural_method call save_jpeg api_key domain_text image_list) =
      ResultView.error_banner ("❌ Groq 오류 발생: " ++ e) := by
  have hg : generate_natural_method call save_jpeg api_key domain_text image_list =
      "❌ Groq 오류 발생: " ++ e := by
    unfold generate_natural_method
    rw [h]
  have hhead : ("❌ Groq 오류 발생: " : String).toList =
      '❌' :: (" Groq 오류 발생: " : String).toList := rfl
  have hc : py_contains error_marker ("❌ Groq 오류 발생: " ++ e) = true := by
    unfold py_contains
    rw [string_toList_append, hhead, List.cons_append]
    simp [contains_chars, leads_with, error_marker]
  refine ⟨hg, ?_, ?_⟩
  · rw [hg]
    exact hc
  · rw [hg]
    simp [render_result, hc]

/-- C2 witness at a concrete raising call. -/
theorem exception_returns_marker_string_witness :
    (fun (_ : String) (_ : ChatRequest) => (Except.error "boom" : Except String String))
        "sk-demo" (built_request (fun _ => [0]) "vision" [⟨2000, 1500, 3, 0⟩]) =
      Except.error "boom" ∧
    (generate_natural_method (fun _ _ => Except.error "boom") (fun _ => [0])
        "sk-demo" "vision" [⟨2000, 1500, 3, 0⟩] = "❌ Groq 오류 발생: " ++ "boom" ∧
     py_contains error_marker (generate_natural_method (fun _ _ => Except.error "boom")
        (fun _ => [0]) "sk-demo" "vision" [⟨2000, 1500, 3, 0⟩]) = true ∧
     render_result (generate_natural_method (fun _ _ => Except.error "boom") (fun _ => [0])
        "sk-demo" "vision" [⟨2000, 1500, 3, 0⟩]) =
       ResultView.error_banner ("❌ Groq 오류 발생: " ++ "boom")) :=
  ⟨rfl, exception_returns_marker_string (fun _ _ => Except.error "boom") (fun _ => [0])
    "sk-demo" "vision" [⟨2000, 1500, 3, 0⟩] "boom" rfl⟩

/-- C4: with an empty image list the click is rejected with the error message
and no call is attempted (the outcome does not depend on the call function);
with a non-empty list the generation call proceeds and its result is
rendered. -/
theorem zero_images_rejected (call call₂ : GroqCall) (save_jpeg : JpegCodec)
    (api_key domain_input : String) (image_list : List RasterImage) :
    on_click call save_jpeg api_key domain_input [] =
      ClickOutcome.rejected "이미지를 한 장 이상 업로드해주세요!" ∧
    on_click call save_jpeg api_key domain_input [] =
      on_click call₂ save_jpeg api_key domain_input [] ∧
    (image_list ≠ [] →
      on_click call save_jpeg api_key domain_input image_list =
        ClickOutcome.displayed (render_result
          (generate_natural_method call save_jpeg api_key domain_input image_list))) := by
  refine ⟨rfl, rfl, fun hne => ?_⟩
  simp [on_click, hne]

/-- C4 witness: one concrete non-empty list proceeds to the rendered call. -/
theorem zero_images_rejected_witness :
    ([⟨2000, 1500, 3, 0⟩] : List RasterImage) ≠ [] ∧
    on_click (fun _ _ => Except.ok "done") (fun _ => [0]) "sk-demo" "vision"
        [⟨2000, 1500, 3, 0⟩] =
      ClickOutcome.displayed (render_result
        (generate_natural_method (fun _ _ => Except.ok "done") (fun _ => [0])
          "sk-demo" "vision" [⟨2000, 1500, 3, 0⟩])) :=
  ⟨by simp, (zero_images_rejected (fun _ _ => Except.ok "done") (fun _ _ => Except.ok "done")
    (fun _ => [0]) "sk-demo" "vision" [⟨2000, 1500, 3, 0⟩]).2.2 (by simp)⟩

/-- C5: the normalizer converts the raster to 3-channel color, serializes it
with the JPEG codec, and returns the base64 text of those bytes; each payload
image block built from an input image references that payload through the
`data:image/jpeg;base64,` URI. -/
theorem normalizer_and_datauri (save_jpeg : JpegCodec) (domain_text : String)
    (image_list : List RasterImage) (img : RasterImage) (h : img ∈ image_list) :
    (convert_rgb img).channels = 3 ∧
    encode_image_to_base64 save_jpeg img = b64Encode (save_jpeg (convert_rgb img)) ∧
    ContentBlock.image_url ("data:image/jpeg;base64," ++ encode_image_to_base64 save_jpeg img)
      ∈ content_payload save_jpeg domain_text image_list := by
  refine ⟨rfl, rfl, ?_⟩
  unfold content_payload
  rw [foldl_append_eq_map]
  exact List.mem_cons_of_mem _ (List.mem_map_of_mem _ h)

/-- C5 witness at a one-image list. -/
theorem normalizer_and_datauri_witness :
    (⟨2000, 1500, 3, 0⟩ : RasterImage) ∈ ([⟨2000, 1500, 3, 0⟩] : List RasterImage) ∧
    ((convert_rgb ⟨2000, 1500, 3, 0⟩).channels = 3 ∧
     encode_image_to_base64 (fun _ => [77, 97, 110]) ⟨2000, 1500, 3, 0⟩ =
       b64Encode ((fun _ => [77, 97, 110]) (convert_rgb ⟨2000, 1500, 3, 0⟩)) ∧
     ContentBlock.image_url ("data:image/jpeg;base64," ++
         encode_image_to_base64 (fun _ => [77, 97, 110]) ⟨2000, 1500, 3, 0⟩)
       ∈ content_payload (fun _ => [77, 97, 110]) "vision" [⟨2000, 1500, 3, 0⟩]) :=
  ⟨by simp, normalizer_and_datauri (fun _ => [77, 97, 110]) "vision"
    [⟨2000, 1500, 3, 0⟩] ⟨2000, 1500, 3, 0⟩ (by simp)⟩

/-- C6: every request `generate_natural_method` sends carries the fixed model
identifier, temperature 0.5, max output budget 6000, and a single user message
holding the constructed content payload. -/
theorem request_fixed_parameters (save_jpeg : JpegCodec) (domain_text : String)
    (image_list : List RasterImage) :
    (built_request save_jpeg domain_text image_list).model =
      "llama-3.2-11b-vision-preview" ∧
    (built_request save_jpeg domain_text image_list).temperature = 0.5 ∧
    (built_request save_jpeg domain_text image_list).max_tokens = 6000 ∧
    (built_request save_jpeg domain_text image_list).messages =
      [{ role := "user", content := content_payload save_jpeg domain_text image_list }] :=
  ⟨rfl, rfl, rfl, rfl⟩

/-- C7: base64-decoding the string produced by `encode_image_to_base64`
recovers exactly the JPEG bytes that were encoded. -/
theorem b64_decode_encode_image (save_jpeg : JpegCodec) (img : RasterImage)
    (h : ∀ b ∈ save_jpeg (convert_rgb img), b < 256) :
    b64Decode (encode_image_to_base64 save_jpeg img) = save_jpeg (convert_rgb img) := by
  unfold encode_image_to_base64 b64Encode b64Decode
  exact b64_chunks_roundtrip _ h

/-- C7 witness at concrete JPEG bytes. -/
theorem b64_decode_encode_image_witness :
    (∀ b ∈ (fun _ : RasterImage => [0, 100, 255, 7]) (convert_rgb ⟨2000, 1500, 3, 0⟩),
        b < 256) ∧
    b64Decode (encode_image_to_base64 (fun _ => [0, 100, 255, 7]) ⟨2000, 1500, 3, 0⟩) =
      [0, 100, 255, 7] :=
  ⟨by decide, b64_decode_encode_image (fun _ => [0, 100, 255, 7]) ⟨2000, 1500, 3, 0⟩
    (by decide)⟩

/-- C8: the payload's text block is exactly the fixed template with the domain
text embedded verbatim and the image count interpolated in decimal; the
surrounding pieces are constants, and any domain text (the empty string
included) is accepted. -/
theorem prompt_template_shape (save_jpeg : JpegCodec) (domain_text : String)
    (n : Nat) (image_list : List RasterImage) :
    user_prompt domain_text n =
      prompt_before_domain ++ domain_text ++ prompt_before_count ++
        Nat.repr n ++ prompt_after_count ∧
    (content_payload save_jpeg domain_text image_list).head? =
      some (ContentBlock.text (user_prompt domain_text image_list.length)) := by
  constructor
  · rfl
  · unfold content_payload
    rw [foldl_append_eq_map]
    rfl

/-- C9: a missing credential halts startup with the configuration error
messages, before any page is built and independently of the model call; a
present credential lets the page render, the click handler receiving the
loaded key. -/
theorem api_key_gate (call call₂ : GroqCall) (save_jpeg : JpegCodec)
    (domain_input : String) (pil_images : List RasterImage) (clicked : Bool)
    (secrets_file : Option (List (String × String))) :
    (lookup_api_key secrets_file = none →
      app secrets_file call save_jpeg domain_input pil_images clicked =
        AppOutcome.halted_config config_error_messages ∧
      app secrets_file call save_jpeg domain_input pil_images clicked =
        app secrets_file call₂ save_jpeg domain_input pil_images clicked) ∧
    (∀ key, lookup_api_key secrets_file = some key →
      app secrets_file call save_jpeg domain_input pil_images clicked =
        AppOutcome.page
          { title := "📄 AI Paper Writer (Multi-Image Support)",
            click := if clicked then
                some (on_click call save_jpeg key domain_input pil_images)
              else none }) := by
  refine ⟨fun h => ⟨?_, ?_⟩, fun key h => ?_⟩
  · unfold app
    rw [h]
  · unfold app
    rw [h]
  · unfold app
    rw [h]

/-- C9 witness: a store holding the key proceeds to the page. -/
theorem api_key_gate_witness :
    lookup_api_key (some [("GROQ_API_KEY", "sk-demo")]) = some "sk-demo" ∧
    app (some [("GROQ_API_KEY", "sk-demo")]) (fun _ _ => Except.ok "done") (fun _ => [0])
        "vision" [] false =
      AppOutcome.page
        { title := "📄 AI Paper Writer (Multi-Image Support)", click := none } :=
  ⟨rfl, by
    simpa using (api_key_gate (fun _ _ => Except.ok "done") (fun _ _ => Except.ok "done")
      (fun _ => [0]) "vision" [] false (some [("GROQ_API_KEY", "sk-demo")])).2
      "sk-demo" rfl⟩

/-- C10: the success check is only the substring test for `❌`, so a
successful model response that happens to contain that character is shown as
an error banner: a concrete false positive of the classification. -/
theorem success_with_marker_shows_error_banner :
    generate_natural_method (fun _ _ => Except.ok "We ablate the ❌ failure cases.")
        (fun _ => [0]) "sk-demo" "vision" [⟨2000, 1500, 3, 0⟩] =
      "We ablate the ❌ failure cases." ∧
    render_result "We ablate the ❌ failure cases." =
      ResultView.error_banner "We ablate the ❌ failure cases." := by
  refine ⟨rfl, ?_⟩
  rfl

end Paper
